import Mathlib

/-!
# Oryol: browser input adapter (`emscInputMgr`) and D3D12 mesh descriptor (`d3d12Mesh`)

A shallow embedding of `code/Modules/Input/emsc/emscInputMgr.cc` and
`code/Modules/Gfx/d3d12/d3d12Mesh.h`.

Conventions of the embedding:

* a handler `EM_BOOL emscXxx(int, const Event*, void* userData)` becomes a function from the
  manager state (`self`) and the host event to an `Outcome`: the new manager state, the
  calls the handler makes on its collaborators (engine input objects and the host
  runtime) in program order, and the returned `EM_BOOL`;
* the engine objects `Keyboard`, `Mouse` and the base class `inputMgrBase` are not part of
  the translated sources; what they answer when called (`IsCapturingText()`, the
  `PointerLockMode` returned by `onButtonDown` / `onButtonUp`) is an argument of the handler;
* C arrays indexed by an integer are functions on `Nat` (the key table) or lists with checked
  access (touch points);
* the handlers are written over a type `F` standing for `float` and take the conversions and
  operations on it as arguments; the section on single precision supplies them: a `float` is
  the rational number it denotes, and every conversion and product rounds to the nearest
  binary32 number, ties to even.
-/

namespace Oryol

/-! ## Engine enumerations named by the source -/

/-- Modelled from the spec: the engine-neutral key enumeration `Key::Code` is declared in
`Input/Core/Key.h`, which is not among the sources. Its enumerators are exactly the ones
`emscInputMgr.cc` names: the sentinel `InvalidKey` and every key written into the key table. -/
inductive Key
  | InvalidKey
  | BackSpace | Tab | Enter | LeftShift | LeftControl | LeftAlt | Pause | Escape | Space
  | PageUp | PageDown | End | Home | Left | Up | Right | Down | Insert | Delete
  | N0 | N1 | N2 | N3 | N4 | N5 | N6 | N7 | N8 | N9
  | Semicolon | Equal
  | A | B | C | D | E | F | G | H | I | J | K | L | M
  | N | O | P | Q | R | S | T | U | V | W | X | Y | Z
  | Menu
  | Num0 | Num1 | Num2 | Num3 | Num4 | Num5 | Num6 | Num7 | Num8 | Num9
  | NumMultiply | NumAdd | NumSubtract | NumDecimal | NumDivide
  | F1 | F2 | F3 | F4 | F5 | F6 | F7 | F8 | F9 | F10 | F11 | F12
  | NumLock | ScrollLock | Minus | Comma | Period | Slash | GraveAccent
  | LeftBracket | BackSlash | RightBracket | Apostrophe | LeftSuper
  deriving DecidableEq, Repr

/-- Modelled from the spec: `Mouse::Button` is declared in `Input/Core/Mouse.h` (not among the
sources); the enumerators are the four the source names. -/
inductive Button
  | LMB | MMB | RMB | InvalidButton
  deriving DecidableEq, Repr

/-- Modelled from the spec: `Mouse::PointerLockMode` is declared in `Input/Core/Mouse.h` (not
among the sources). The source names only `PointerLockModeEnable`; every other enumerator
of the type is represented as `otherMode n`. -/
inductive PointerLockMode
  | PointerLockModeEnable
  | otherMode (n : Nat)
  deriving DecidableEq, Repr

/-- Modelled from the spec: `RunLoop::Id` with its sentinel `RunLoop::InvalidId`; the run loop
is declared in `Core/RunLoop.h`, which is not among the sources. -/
inductive RunLoopId
  | InvalidId
  | id (n : Nat)
  deriving DecidableEq, Repr

/-- The two-component vector `glm::vec2`, over the type `F` standing for `float`. -/
structure vec2 (F : Type) where
  x : F
  y : F
  deriving DecidableEq, Repr

/-! ## Host (Emscripten HTML5) event records -/

/-- The fields of `EmscriptenKeyboardEvent` that the handlers read; `isRepeat` is the field
`repeat` of the host record (a reserved word here). -/
structure EmscriptenKeyboardEvent where
  keyCode : Nat
  isRepeat : Bool
  charCode : Nat
  deriving DecidableEq, Repr

/-- The fields of `EmscriptenMouseEvent` that the handlers read. -/
structure EmscriptenMouseEvent where
  button : Nat
  canvasX : Int
  canvasY : Int
  movementX : Int
  movementY : Int
  deriving DecidableEq, Repr

/-- The fields of `EmscriptenWheelEvent` that the handler reads, over the type `D` standing for
`double`. -/
structure EmscriptenWheelEvent (D : Type) where
  deltaX : D
  deltaY : D

/-- One entry of `EmscriptenTouchEvent::touches`. -/
structure EmscriptenTouchPoint where
  identifier : Int
  canvasX : Int
  canvasY : Int
  isChanged : Bool
  deriving DecidableEq, Repr

/-- The fields of `EmscriptenTouchEvent` that the handler reads. -/
structure EmscriptenTouchEvent where
  numTouches : Int
  touches : List EmscriptenTouchPoint
  deriving DecidableEq, Repr

/-- The event type `EMSCRIPTEN_EVENT_TOUCHSTART` of the host header `emscripten/html5.h`. -/
def EMSCRIPTEN_EVENT_TOUCHSTART : Int := 22
/-- The event type `EMSCRIPTEN_EVENT_TOUCHEND` of the host header. -/
def EMSCRIPTEN_EVENT_TOUCHEND : Int := 23
/-- The event type `EMSCRIPTEN_EVENT_TOUCHMOVE` of the host header. -/
def EMSCRIPTEN_EVENT_TOUCHMOVE : Int := 24
/-- The event type `EMSCRIPTEN_EVENT_TOUCHCANCEL` of the host header. -/
def EMSCRIPTEN_EVENT_TOUCHCANCEL : Int := 25

/-! ## Engine touch event -/

/-- Kind of a `touchEvent`; `began`, `ended`, `moved`, `cancelled` are the enumerators the
source assigns, `invalid` stands for the value of a record that was not assigned one. -/
inductive touchType
  | began | moved | ended | cancelled | invalid
  deriving DecidableEq, Repr

/-- Modelled from the spec: `touchEvent::point` is declared in `Input/touch/touchEvent.h` (not
among the sources): per finger an identifier, a position and a changed-flag. The position
is a `glm::vec2`, the vector type of every position this source file builds; the handler
stores the host's integer coordinates into its `float` components `pos.x` and `pos.y`. -/
structure touchPoint (F : Type) where
  identifier : Int
  pos : vec2 F
  isChanged : Bool
  deriving DecidableEq, Repr

/-- Modelled from the spec: `touchEvent` is declared in `Input/touch/touchEvent.h` (not among the
sources): an event kind, a timestamp and a fixed-capacity array of points, of which the
first `numTouches` are in use. The capacity is the length of `points`. -/
structure touchEvent (F : Type) where
  type : touchType
  time : Nat
  numTouches : Int
  points : List (touchPoint F)
  deriving DecidableEq, Repr

/-! ## Calls on collaborators -/

/-- The static member functions installed as host callbacks. -/
inductive Callback
  | emscKeyDown | emscKeyUp | emscKeyPress
  | emscMouseDown | emscMouseUp | emscMouseMove | emscWheel
  | emscTouch | emscDeviceMotion | emscDeviceOrientation
  deriving DecidableEq, Repr

/-- The host event a registration call `emscripten_set_<event>_callback` is for. -/
inductive HostEvent
  | keydown | keyup | keypress
  | mousedown | mouseup | mousemove | wheel
  | touchstart | touchend | touchmove | touchcancel
  | devicemotion | deviceorientation
  deriving DecidableEq, Repr

/-- The `target` argument of a registration call: the literal `0`, a selector string, or
absent (the device-motion and device-orientation installers take no target). -/
inductive Target
  | null
  | selector (s : String)
  | noTarget
  deriving DecidableEq, Repr

/-- The `userData` argument of a registration call: `this` or `0`. -/
inductive UserData
  | this
  | null
  deriving DecidableEq, Repr

/-- A call made by the manager on one of its collaborators. -/
inductive Call (F : Type)
  /-- The call `Keyboard.onKeyDown(key)` -/
  | onKeyDown (key : Key)
  /-- The call `Keyboard.onKeyRepeat(key)` -/
  | onKeyRepeat (key : Key)
  /-- The call `Keyboard.onKeyUp(key)` -/
  | onKeyUp (key : Key)
  /-- The call `Keyboard.onChar(c)` -/
  | onChar (c : Nat)
  /-- The call `Mouse.onButtonDown(btn)` -/
  | onButtonDown (btn : Button)
  /-- The call `Mouse.onButtonUp(btn)` -/
  | onButtonUp (btn : Button)
  /-- The call `Mouse.onMov(mov)` -/
  | onMov (mov : vec2 F)
  /-- The call `Mouse.onPosMov(pos)` -/
  | onPosMov (pos : vec2 F)
  /-- The call `Mouse.onScroll(scroll)` -/
  | onScroll (scroll : vec2 F)
  /-- The call `onTouchEvent(event)` of the base class -/
  | onTouchEvent (event : touchEvent F)
  /-- The call `emscripten_request_pointerlock(target, deferUntilInEventHandler)` -/
  | emscripten_request_pointerlock (target : Target) (deferUntilInEventHandler : Bool)
  /-- The call `emscripten_exit_pointerlock()` -/
  | emscripten_exit_pointerlock
  /-- The call `emscripten_set_<event>_callback(target, userData, useCapture, callback)`; a null
  callback is `none` -/
  | emscripten_set_callback (event : HostEvent) (target : Target) (userData : UserData)
      (useCapture : Bool) (callback : Option Callback)
  /-- The call `inputMgrBase::setup(setup)` -/
  | inputMgrBase_setup
  /-- The call `inputMgrBase::discard()` -/
  | inputMgrBase_discard
  /-- The call `Core::PostRunLoop()->Add(...)` with the per-frame `reset()` hook -/
  | PostRunLoop_Add
  /-- The call `Core::PostRunLoop()->Remove(id)` -/
  | PostRunLoop_Remove (id : RunLoopId)
  deriving DecidableEq, Repr

/-! ## The manager -/

/-- The two flags of `InputSetup` that the manager reads. -/
structure InputSetup where
  AccelerometerEnabled : Bool
  GyrometerEnabled : Bool
  deriving DecidableEq, Repr

/-- State of `emscInputMgr`: its own members `runLoopId`, `pointerLockActive`, `keyTable`, and
the members of the base class it touches (`inputSetup` and the `Attached` flag of the four
input objects). The array `keyTable[MaxNumKeys]` is a function of the index. -/
structure emscInputMgr where
  runLoopId : RunLoopId
  pointerLockActive : Bool
  keyTable : Nat → Key
  inputSetup : InputSetup
  KeyboardAttached : Bool
  MouseAttached : Bool
  TouchpadAttached : Bool
  SensorsAttached : Bool

/-- What a handler does: the manager afterwards, the calls it made in program order, and
the returned `EM_BOOL`. -/
structure Outcome (F : Type) where
  self : emscInputMgr
  calls : List (Call F)
  ret : Bool

/-- The constructor `emscInputMgr::emscInputMgr()`: `runLoopId(RunLoop::InvalidId)`,
`pointerLockActive(false)`; the members it does not initialise are taken from `raw`. -/
def emscInputMgr.construct (raw : emscInputMgr) : emscInputMgr :=
  { raw with runLoopId := RunLoopId.InvalidId, pointerLockActive := false }

/-- The method `emscInputMgr::mapKey`. -/
def mapKey (MaxNumKeys : Nat) (self : emscInputMgr) (html5KeyCode : Nat) : Key :=
  if html5KeyCode < MaxNumKeys then
    self.keyTable html5KeyCode
  else
    Key.InvalidKey

/-- The array store `table[i] = k`. -/
def setAt (table : Nat → Key) (i : Nat) (k : Key) : Nat → Key :=
  fun j => if j = i then k else table j

/-- The assignments `this->keyTable[i] = k` of `setupKeyTable`, in program order. -/
def keyAssignments : List (Nat × Key) :=
  [ (8, Key.BackSpace), (9, Key.Tab), (13, Key.Enter), (16, Key.LeftShift),
    (17, Key.LeftControl), (18, Key.LeftAlt), (19, Key.Pause), (27, Key.Escape),
    (32, Key.Space), (33, Key.PageUp), (34, Key.PageDown), (35, Key.End), (36, Key.Home),
    (37, Key.Left), (38, Key.Up), (39, Key.Right), (40, Key.Down), (45, Key.Insert),
    (46, Key.Delete),
    (48, Key.N0), (49, Key.N1), (50, Key.N2), (51, Key.N3), (52, Key.N4), (53, Key.N5),
    (54, Key.N6), (55, Key.N7), (56, Key.N8), (57, Key.N9),
    (59, Key.Semicolon), (64, Key.Equal),
    (65, Key.A), (66, Key.B), (67, Key.C), (68, Key.D), (69, Key.E), (70, Key.F),
    (71, Key.G), (72, Key.H), (73, Key.I), (74, Key.J), (75, Key.K), (76, Key.L),
    (77, Key.M), (78, Key.N), (79, Key.O), (80, Key.P), (81, Key.Q), (82, Key.R),
    (83, Key.S), (84, Key.T), (85, Key.U), (86, Key.V), (87, Key.W), (88, Key.X),
    (89, Key.Y), (90, Key.Z),
    (93, Key.Menu),
    (96, Key.Num0), (97, Key.Num1), (98, Key.Num2), (99, Key.Num3), (100, Key.Num4),
    (101, Key.Num5), (102, Key.Num6), (103, Key.Num7), (104, Key.Num8), (105, Key.Num9),
    (106, Key.NumMultiply), (107, Key.NumAdd), (109, Key.NumSubtract),
    (110, Key.NumDecimal), (111, Key.NumDivide),
    (112, Key.F1), (113, Key.F2), (114, Key.F3), (115, Key.F4), (116, Key.F5),
    (117, Key.F6), (118, Key.F7), (119, Key.F8), (120, Key.F9), (121, Key.F10),
    (122, Key.F11), (123, Key.F12),
    (144, Key.NumLock), (145, Key.ScrollLock), (173, Key.Minus), (188, Key.Comma),
    (190, Key.Period), (191, Key.Slash), (192, Key.GraveAccent), (219, Key.LeftBracket),
    (220, Key.BackSlash), (221, Key.RightBracket), (222, Key.Apostrophe),
    (224, Key.LeftSuper) ]

/-- The method `emscInputMgr::setupKeyTable`: the loop stores `InvalidKey` at every index below
`MaxNumKeys`, then the assignments are executed in order. -/
def setupKeyTable (MaxNumKeys : Nat) (self : emscInputMgr) : emscInputMgr :=
  let cleared : Nat → Key :=
    fun i => if i < MaxNumKeys then Key.InvalidKey else self.keyTable i
  { self with keyTable := keyAssignments.foldl (fun t a => setAt t a.1 a.2) cleared }

/-- The handler `emscInputMgr::emscKeyDown`. `IsCapturingText` is the answer of
`self->Keyboard.IsCapturingText()`. -/
def emscKeyDown {F : Type} (MaxNumKeys : Nat) (self : emscInputMgr)
    (e : EmscriptenKeyboardEvent) (IsCapturingText : Bool) : Outcome F :=
  let key := mapKey MaxNumKeys self e.keyCode
  if Key.InvalidKey ≠ key then
    let calls : List (Call F) :=
      if e.isRepeat then [Call.onKeyRepeat key] else [Call.onKeyDown key]
    if IsCapturingText then
      if (Key.Tab = key) ∨ (Key.BackSpace = key) ∨ (Key.Enter = key) then
        { self := self, calls := calls, ret := true }
      else
        { self := self, calls := calls, ret := false }
    else
      { self := self, calls := calls, ret := true }
  else
    { self := self, calls := [], ret := false }

/-- The handler `emscInputMgr::emscKeyUp`. -/
def emscKeyUp {F : Type} (MaxNumKeys : Nat) (self : emscInputMgr)
    (e : EmscriptenKeyboardEvent) : Outcome F :=
  let key := mapKey MaxNumKeys self e.keyCode
  if Key.InvalidKey ≠ key then
    { self := self, calls := [Call.onKeyUp key], ret := true }
  else
    { self := self, calls := [], ret := false }

/-- The handler `emscInputMgr::emscKeyPress`. -/
def emscKeyPress {F : Type} (self : emscInputMgr) (e : EmscriptenKeyboardEvent) : Outcome F :=
  { self := self, calls := [Call.onChar e.charCode], ret := true }

/-- The method `emscInputMgr::mapMouseButton`. -/
def mapMouseButton (html5Btn : Nat) : Button :=
  match html5Btn with
  | 0 => Button.LMB
  | 1 => Button.MMB
  | 2 => Button.RMB
  | _ => Button.InvalidButton

/-- The method `emscInputMgr::updatePointerLockMode`: the host call it makes and the value it
returns. -/
def updatePointerLockMode {F : Type} (lockMode : PointerLockMode) : List (Call F) × Bool :=
  if PointerLockMode.PointerLockModeEnable = lockMode then
    ([Call.emscripten_request_pointerlock Target.null false], true)
  else
    ([Call.emscripten_exit_pointerlock], false)

/-- The handler `emscInputMgr::emscMouseDown`. `onButtonDown` is the lock mode that
`self->Mouse.onButtonDown(btn)` returns. -/
def emscMouseDown {F : Type} (self : emscInputMgr) (e : EmscriptenMouseEvent)
    (onButtonDown : Button → PointerLockMode) : Outcome F :=
  let btn := mapMouseButton e.button
  if Button.InvalidButton ≠ btn then
    let lockMode := onButtonDown btn
    let upd : List (Call F) × Bool := updatePointerLockMode lockMode
    { self := { self with pointerLockActive := upd.2 },
      calls := Call.onButtonDown btn :: upd.1,
      ret := true }
  else
    { self := self, calls := [], ret := true }

/-- The handler `emscInputMgr::emscMouseUp`. `onButtonUp` is the lock mode that
`self->Mouse.onButtonUp(btn)` returns. -/
def emscMouseUp {F : Type} (self : emscInputMgr) (e : EmscriptenMouseEvent)
    (onButtonUp : Button → PointerLockMode) : Outcome F :=
  let btn := mapMouseButton e.button
  if Button.InvalidButton ≠ btn then
    let lockMode := onButtonUp btn
    let upd : List (Call F) × Bool := updatePointerLockMode lockMode
    { self := { self with pointerLockActive := upd.2 },
      calls := Call.onButtonUp btn :: upd.1,
      ret := true }
  else
    { self := self, calls := [], ret := true }

/-- The handler `emscInputMgr::emscMouseMove`. -/
def emscMouseMove {F : Type} (toFloat : Int → F) (self : emscInputMgr)
    (e : EmscriptenMouseEvent) : Outcome F :=
  if self.pointerLockActive then
    let mov : vec2 F := { x := toFloat e.movementX, y := toFloat e.movementY }
    { self := self, calls := [Call.onMov mov], ret := true }
  else
    let pos : vec2 F := { x := toFloat e.canvasX, y := toFloat e.canvasY }
    { self := self, calls := [Call.onPosMov pos], ret := true }

/-- The handler `emscInputMgr::emscWheel`, over uninterpreted floating-point operations: the
conversion `(float)` of a `double`, the product and the negation of two `float`s, and the
literal `0.5f`. -/
def emscWheel {F D : Type} (castFloat : D → F) (mul : F → F → F) (neg : F → F) (half : F)
    (self : emscInputMgr) (e : EmscriptenWheelEvent D) : Outcome F :=
  let scroll : vec2 F :=
    { x := mul (castFloat e.deltaX) half, y := mul (neg (castFloat e.deltaY)) half }
  { self := self, calls := [Call.onScroll scroll], ret := true }

/-- The point that one iteration of the copy loop of `emscTouch` stores for the host touch
`t`: identifier, canvas position and changed-flag of `t`. -/
def copiedPoint {F : Type} (toFloat : Int → F) (t : EmscriptenTouchPoint) : touchPoint F :=
  { identifier := t.identifier,
    pos := { x := toFloat t.canvasX, y := toFloat t.canvasY },
    isChanged := t.isChanged }

/-- The loop `for (int i = 0; i < event.numTouches; i++)` of `emscTouch`, with `steps`
iterations left to run from index `i`. An access outside `e->touches` or outside
`event.points` is undefined and yields `none`. -/
def copyTouches {F : Type} (toFloat : Int → F) (e : EmscriptenTouchEvent) :
    Nat → Nat → touchEvent F → Option (touchEvent F)
  | 0, _, event => some event
  | steps + 1, i, event =>
    match e.touches[i]? with
    | none => none
    | some t =>
      if i < event.points.length then
        let curPoint : touchPoint F := copiedPoint toFloat t
        copyTouches toFloat e steps (i + 1) { event with points := event.points.set i curPoint }
      else
        none

/-- The handler `emscInputMgr::emscTouch`. `event0` is the default-constructed
`touchEvent event;` and `now` the value of `Oryol::Clock::Now()`. The result is `none` when
the copy loop leaves one of the two arrays. -/
def emscTouch {F : Type} (toFloat : Int → F) (now : Nat) (event0 : touchEvent F)
    (self : emscInputMgr) (eventType : Int) (e : EmscriptenTouchEvent) : Option (Outcome F) :=
  let type? : Option touchType :=
    if eventType = EMSCRIPTEN_EVENT_TOUCHSTART then some touchType.began
    else if eventType = EMSCRIPTEN_EVENT_TOUCHEND then some touchType.ended
    else if eventType = EMSCRIPTEN_EVENT_TOUCHMOVE then some touchType.moved
    else if eventType = EMSCRIPTEN_EVENT_TOUCHCANCEL then some touchType.cancelled
    else none
  match type? with
  | none => some { self := self, calls := [], ret := false }
  | some ty =>
    let event : touchEvent F :=
      { event0 with type := ty, time := now, numTouches := e.numTouches }
    match copyTouches toFloat e event.numTouches.toNat 0 event with
    | none => none
    | some event => some { self := self, calls := [Call.onTouchEvent event], ret := true }

/-- The method `emscInputMgr::setupCallbacks`. -/
def setupCallbacks {F : Type} (self : emscInputMgr) : List (Call F) :=
  [ Call.emscripten_set_callback HostEvent.keydown Target.null UserData.this true
      (some Callback.emscKeyDown),
    Call.emscripten_set_callback HostEvent.keyup Target.null UserData.this true
      (some Callback.emscKeyUp),
    Call.emscripten_set_callback HostEvent.keypress Target.null UserData.this true
      (some Callback.emscKeyPress),
    Call.emscripten_set_callback HostEvent.mousedown (Target.selector "#canvas") UserData.this
      true (some Callback.emscMouseDown),
    Call.emscripten_set_callback HostEvent.mouseup (Target.selector "#canvas") UserData.this
      true (some Callback.emscMouseUp),
    Call.emscripten_set_callback HostEvent.mousemove (Target.selector "#canvas") UserData.this
      true (some Callback.emscMouseMove),
    Call.emscripten_set_callback HostEvent.wheel (Target.selector "#canvas") UserData.this
      false (some Callback.emscWheel),
    Call.emscripten_set_callback HostEvent.touchstart (Target.selector "#canvas") UserData.this
      true (some Callback.emscTouch),
    Call.emscripten_set_callback HostEvent.touchend (Target.selector "#canvas") UserData.this
      true (some Callback.emscTouch),
    Call.emscripten_set_callback HostEvent.touchmove (Target.selector "#canvas") UserData.this
      true (some Callback.emscTouch),
    Call.emscripten_set_callback HostEvent.touchcancel (Target.selector "#canvas")
      UserData.this true (some Callback.emscTouch) ]
  ++ (if self.inputSetup.AccelerometerEnabled then
        [Call.emscripten_set_callback HostEvent.devicemotion Target.noTarget UserData.this true
          (some Callback.emscDeviceMotion)]
      else [])
  ++ (if self.inputSetup.GyrometerEnabled then
        [Call.emscripten_set_callback HostEvent.deviceorientation Target.noTarget UserData.this
          true (some Callback.emscDeviceOrientation)]
      else [])

/-- The method `emscInputMgr::discardCallbacks`. -/
def discardCallbacks {F : Type} : List (Call F) :=
  [ Call.emscripten_set_callback HostEvent.keydown Target.null UserData.null true none,
    Call.emscripten_set_callback HostEvent.keyup Target.null UserData.null true none,
    Call.emscripten_set_callback HostEvent.keypress Target.null UserData.null true none,
    Call.emscripten_set_callback HostEvent.mousedown (Target.selector "#canvas") UserData.null
      true none,
    Call.emscripten_set_callback HostEvent.mouseup (Target.selector "#canvas") UserData.null
      true none,
    Call.emscripten_set_callback HostEvent.mousemove (Target.selector "#canvas") UserData.null
      true none,
    Call.emscripten_set_callback HostEvent.wheel (Target.selector "#canvas") UserData.null
      true none,
    Call.emscripten_set_callback HostEvent.touchstart (Target.selector "#canvas") UserData.null
      true none,
    Call.emscripten_set_callback HostEvent.touchend (Target.selector "#canvas") UserData.null
      true none,
    Call.emscripten_set_callback HostEvent.touchmove (Target.selector "#canvas") UserData.null
      true none,
    Call.emscripten_set_callback HostEvent.touchcancel (Target.selector "#canvas")
      UserData.null true none,
    Call.emscripten_set_callback HostEvent.devicemotion Target.noTarget UserData.null true none,
    Call.emscripten_set_callback HostEvent.deviceorientation Target.noTarget UserData.null true
      none ]

/-- The method `emscInputMgr::setup`. The base-class call `inputMgrBase::setup(setup)` stores the
setup object in `inputSetup` (the member `setupCallbacks` reads afterwards); `addedId` is the
id that `Core::PostRunLoop()->Add` returns. -/
def setup {F : Type} (MaxNumKeys : Nat) (self : emscInputMgr) (setup : InputSetup)
    (addedId : RunLoopId) : emscInputMgr × List (Call F) :=
  let s1 : emscInputMgr := { self with inputSetup := setup }
  let s2 := setupKeyTable MaxNumKeys s1
  let s3 : emscInputMgr :=
    { s2 with KeyboardAttached := true, MouseAttached := true,
              TouchpadAttached := true, SensorsAttached := true }
  ({ s3 with runLoopId := addedId },
   [Call.inputMgrBase_setup] ++ setupCallbacks s3 ++ [Call.PostRunLoop_Add])

/-- The method `emscInputMgr::discard`. -/
def discard {F : Type} (self : emscInputMgr) : emscInputMgr × List (Call F) :=
  ({ self with runLoopId := RunLoopId.InvalidId },
   discardCallbacks ++ [Call.PostRunLoop_Remove self.runLoopId] ++ [Call.inputMgrBase_discard])

/-! ## Sequences of mouse events -/

/-- One host mouse event as the manager receives it: a mouse-down or mouse-up together with
what the engine mouse object answers to `onButtonDown` / `onButtonUp` at that moment, or a
mouse-move. -/
inductive MouseInput
  | down (e : EmscriptenMouseEvent) (onButtonDown : Button → PointerLockMode)
  | up (e : EmscriptenMouseEvent) (onButtonUp : Button → PointerLockMode)
  | move (e : EmscriptenMouseEvent)

/-- Dispatch of one host mouse event to its handler. -/
def handleMouse {F : Type} (toFloat : Int → F) (self : emscInputMgr) : MouseInput → Outcome F
  | MouseInput.down e onButtonDown => emscMouseDown self e onButtonDown
  | MouseInput.up e onButtonUp => emscMouseUp self e onButtonUp
  | MouseInput.move e => emscMouseMove toFloat self e

/-- The manager after a sequence of host mouse events, handled in order. -/
def runMouse {F : Type} (toFloat : Int → F) (self : emscInputMgr)
    (events : List MouseInput) : emscInputMgr :=
  events.foldl (fun s ev => (handleMouse toFloat s ev).self) self

/-- Specification side: the engine button of a host button index, `none` for an index that
is not 0, 1 or 2. -/
def validButton : Nat → Option Button
  | 0 => some Button.LMB
  | 1 => some Button.MMB
  | 2 => some Button.RMB
  | _ => none

/-- Specification side: the lock mode returned to a mouse-down or mouse-up with a valid
button; `none` for a mouse-move and for an invalid button. -/
def lockReply : MouseInput → Option PointerLockMode
  | MouseInput.down e onButtonDown => (validButton e.button).map onButtonDown
  | MouseInput.up e onButtonUp => (validButton e.button).map onButtonUp
  | MouseInput.move _ => none

/-- Specification side: the lock mode returned by the most recent valid-button mouse-down or
mouse-up of a history (oldest event first), `none` when there was none. -/
def lastLockReply (history : List MouseInput) : Option PointerLockMode :=
  (history.reverse.filterMap lockReply).head?

/-- Specification side: a mouse-move after `history` is routed as a movement delta exactly
when the most recent valid-button mouse-down or mouse-up returned `PointerLockModeEnable`. -/
def routedAsDelta (history : List MouseInput) : Bool :=
  decide (lastLockReply history = some PointerLockMode.PointerLockModeEnable)

/-- A mouse event with the given button, canvas position (10, 20) and movement (3, -4). -/
def mouseEvent (button : Nat) : EmscriptenMouseEvent :=
  { button := button, canvasX := 10, canvasY := 20, movementX := 3, movementY := -4 }

/-! ## D3D12 mesh descriptor -/

/-- The conversion of a signed integer to `uint64_t`. -/
def toUint64 (x : Int) : Nat :=
  (x % 2 ^ 64).toNat

/-- The struct `d3d12Mesh::buffer`. A resource pointer `ID3D12Resource*` is `none` when null
and `some h` for the handle `h`; the two `StaticArray<ID3D12Resource*,NumSlots>` are
functions of the slot index. -/
structure d3d12Mesh.buffer (NumSlots : Nat) where
  updateFrameIndex : Nat
  numSlots : Nat
  activeSlot : Nat
  d3d12RenderBuffers : Fin NumSlots → Option Nat
  d3d12UploadBuffers : Fin NumSlots → Option Nat

/-- The constructor `buffer()`: `updateFrameIndex(InvalidIndex)`, `numSlots(1)`, `activeSlot(0)`
and both arrays filled with `nullptr`. `InvalidIndex` is the constant of that name, declared
outside the sources. -/
def d3d12Mesh.buffer.construct (NumSlots : Nat) (InvalidIndex : Int) : d3d12Mesh.buffer NumSlots :=
  { updateFrameIndex := toUint64 InvalidIndex,
    numSlots := 1,
    activeSlot := 0,
    d3d12RenderBuffers := fun _ => none,
    d3d12UploadBuffers := fun _ => none }

/-- The class `d3d12Mesh`: the member `StaticArray<buffer, 2> buffers`, indexed by `vb = 0` and
`ib = 1`. -/
structure d3d12Mesh (NumSlots : Nat) where
  buffers : Fin 2 → d3d12Mesh.buffer NumSlots

/-- The index `d3d12Mesh::vb` of the vertex buffer. -/
def d3d12Mesh.vb : Fin 2 := 0
/-- The index `d3d12Mesh::ib` of the index buffer. -/
def d3d12Mesh.ib : Fin 2 := 1

/-- The non-null handles held by one buffer, slot by slot (render handle, then upload
handle). -/
def d3d12Mesh.buffer.handles {NumSlots : Nat} (b : d3d12Mesh.buffer NumSlots) : List Nat :=
  (List.finRange NumSlots).flatMap
    (fun i => (b.d3d12RenderBuffers i).toList ++ (b.d3d12UploadBuffers i).toList)

/-- Modelled from the spec: `d3d12Mesh::Clear` is only declared in `d3d12Mesh.h`; its body is
not among the sources. Following the spec, it releases every non-null handle across all
slots of both buffer kinds and resets the bookkeeping fields to their empty state. The
result is the descriptor afterwards and the handles released, in order. -/
def d3d12Mesh.Clear {NumSlots : Nat} (InvalidIndex : Int) (m : d3d12Mesh NumSlots) :
    d3d12Mesh NumSlots × List Nat :=
  ({ buffers := fun _ =>
       { updateFrameIndex := toUint64 InvalidIndex,
         numSlots := 1,
         activeSlot := 0,
         d3d12RenderBuffers := fun _ => none,
         d3d12UploadBuffers := fun _ => none } },
   (m.buffers d3d12Mesh.vb).handles ++ (m.buffers d3d12Mesh.ib).handles)

/-! ## Single precision -/

/-- A manager whose members hold arbitrary start values (every key-table entry `InvalidKey`,
every flag `false`). -/
def rawMgr : emscInputMgr :=
  { runLoopId := RunLoopId.id 7, pointerLockActive := false,
    keyTable := fun _ => Key.InvalidKey,
    inputSetup := { AccelerometerEnabled := false, GyrometerEnabled := false },
    KeyboardAttached := false, MouseAttached := false,
    TouchpadAttached := false, SensorsAttached := false }

/-- A constructed manager after `setupKeyTable`, for a key table of 256 entries. -/
def readyMgr : emscInputMgr :=
  setupKeyTable 256 (emscInputMgr.construct rawMgr)

/-- A key event with the given host key code and repeat flag. -/
def keyEvent (keyCode : Nat) (isRepeat : Bool) : EmscriptenKeyboardEvent :=
  { keyCode := keyCode, isRepeat := isRepeat, charCode := 0 }

/-- A mesh descriptor with two slots per buffer that holds four live handles. -/
def loadedMesh : d3d12Mesh 2 :=
  { buffers := fun k =>
      { updateFrameIndex := 12, numSlots := 2, activeSlot := 1,
        d3d12RenderBuffers := fun i => if i.val = 0 then some (100 + k.val) else none,
        d3d12UploadBuffers := fun i => if i.val = 1 then some (200 + k.val) else none } }

/-! ## Key table -/

/-- Stores at indices other than `i` leave the entry at `i` as it was. -/
theorem foldl_setAt_of_not_mem (l : List (Nat × Key)) (t : Nat → Key) (i : Nat)
    (h : i ∉ l.map Prod.fst) :
    (l.foldl (fun t a => setAt t a.1 a.2) t) i = t i := by
  induction l generalizing t with
  | nil => rfl
  | cons a l ih =>
    simp only [List.map_cons, List.mem_cons, not_or] at h
    rw [List.foldl_cons, ih _ h.2]
    simp [setAt, h.1]

/-- Entries of the key table that `setupKeyTable` does not assign are `InvalidKey` or outside
the table. -/
theorem setupKeyTable_unassigned (MaxNumKeys : Nat) (self : emscInputMgr) (code : Nat)
    (h : code ∉ keyAssignments.map Prod.fst) :
    mapKey MaxNumKeys (setupKeyTable MaxNumKeys self) code = Key.InvalidKey := by
  unfold mapKey
  split
  · next hlt =>
    simp only [setupKeyTable]
    rw [foldl_setAt_of_not_mem _ _ _ h]
    simp [hlt]
  · rfl

/-- C2: after `setupKeyTable` (for a table large enough to hold the highest assigned index,
224), `mapKey` returns `Key::InvalidKey` for every host key code that is not one of the
assigned indices, whatever its size; `mapKey(65)` is `Key::A` and `mapKey(9999)` is
`Key::InvalidKey`. -/
theorem C2_mapKey_outside_table_is_invalid (MaxNumKeys : Nat) (self : emscInputMgr)
    (hsize : 224 < MaxNumKeys) :
    (∀ code : Nat, code ∉ keyAssignments.map Prod.fst →
        mapKey MaxNumKeys (setupKeyTable MaxNumKeys self) code = Key.InvalidKey)
    ∧ (∀ code : Nat, MaxNumKeys ≤ code →
        mapKey MaxNumKeys (setupKeyTable MaxNumKeys self) code = Key.InvalidKey)
    ∧ mapKey MaxNumKeys (setupKeyTable MaxNumKeys self) 65 = Key.A
    ∧ mapKey MaxNumKeys (setupKeyTable MaxNumKeys self) 9999 = Key.InvalidKey := by
  refine ⟨fun code h => setupKeyTable_unassigned _ _ _ h, ?_, ?_, ?_⟩
  · intro code hge
    simp [mapKey, Nat.not_lt.mpr hge]
  · have h65 : 65 < MaxNumKeys := by omega
    simp only [mapKey, h65, if_true]
    rfl
  · exact setupKeyTable_unassigned _ _ _ (by decide)

/-- C2 at a table of 256 entries: code 66 is assigned, 10, 65 and 9999 behave as stated. -/
theorem C2_mapKey_outside_table_is_invalid_witness :
    224 < 256
    ∧ mapKey 256 readyMgr 10 = Key.InvalidKey
    ∧ mapKey 256 readyMgr 300 = Key.InvalidKey
    ∧ mapKey 256 readyMgr 65 = Key.A
    ∧ mapKey 256 readyMgr 9999 = Key.InvalidKey :=
  have h := C2_mapKey_outside_table_is_invalid 256 (emscInputMgr.construct rawMgr) (by decide)
  ⟨by decide, h.1 10 (by decide), h.2.1 300 (by decide), h.2.2.1, h.2.2.2⟩

/-! ## Keyboard handlers -/

/-- C1 (as stated, refuted): with text capture active, the key-down handler returns `true`
for Tab (host code 9), where the claim says `false`, and returns `false` for the mapped key
A (host code 65), where the claim says `true`. -/
theorem C1_keyDown_policy_counterexample :
    mapKey 256 readyMgr 9 = Key.Tab
    ∧ (emscKeyDown (F := Int) 256 readyMgr (keyEvent 9 false) true).ret = true
    ∧ mapKey 256 readyMgr 65 = Key.A
    ∧ (emscKeyDown (F := Int) 256 readyMgr (keyEvent 65 false) true).ret = false := by
  decide

/-- C1 (amended): for every host key code that the key table maps to a valid engine key, the
key-down handler returns `true` when text is being captured and the key is Tab, BackSpace
or Enter, returns `false` when text is being captured and the key is any other key, and
returns `true` when text is not being captured. -/
theorem C1_keyDown_policy_amended {F : Type} (MaxNumKeys : Nat) (self : emscInputMgr)
    (e : EmscriptenKeyboardEvent) (IsCapturingText : Bool)
    (hmapped : mapKey MaxNumKeys self e.keyCode ≠ Key.InvalidKey) :
    (emscKeyDown (F := F) MaxNumKeys self e IsCapturingText).ret =
      (if IsCapturingText then
        decide (mapKey MaxNumKeys self e.keyCode = Key.Tab
                ∨ mapKey MaxNumKeys self e.keyCode = Key.BackSpace
                ∨ mapKey MaxNumKeys self e.keyCode = Key.Enter)
       else true) := by
  have hne : Key.InvalidKey ≠ mapKey MaxNumKeys self e.keyCode := fun h => hmapped h.symm
  unfold emscKeyDown
  simp only [hne, ne_eq, not_false_eq_true, if_true]
  cases IsCapturingText
  · simp
  · by_cases hk : Key.Tab = mapKey MaxNumKeys self e.keyCode
        ∨ Key.BackSpace = mapKey MaxNumKeys self e.keyCode
        ∨ Key.Enter = mapKey MaxNumKeys self e.keyCode
    · have hk2 : mapKey MaxNumKeys self e.keyCode = Key.Tab
          ∨ mapKey MaxNumKeys self e.keyCode = Key.BackSpace
          ∨ mapKey MaxNumKeys self e.keyCode = Key.Enter := by
        rcases hk with h | h | h
        · exact Or.inl h.symm
        · exact Or.inr (Or.inl h.symm)
        · exact Or.inr (Or.inr h.symm)
      simp [hk, hk2]
    · have hk2 : ¬ (mapKey MaxNumKeys self e.keyCode = Key.Tab
          ∨ mapKey MaxNumKeys self e.keyCode = Key.BackSpace
          ∨ mapKey MaxNumKeys self e.keyCode = Key.Enter) := by
        intro h
        apply hk
        rcases h with h | h | h
        · exact Or.inl h.symm
        · exact Or.inr (Or.inl h.symm)
        · exact Or.inr (Or.inr h.symm)
      simp [hk, hk2]

/-- C1 (amended) at BackSpace (host code 8) while capturing text: the handler returns `true`. -/
theorem C1_keyDown_policy_amended_witness :
    mapKey 256 readyMgr (keyEvent 8 false).keyCode ≠ Key.InvalidKey
    ∧ (emscKeyDown (F := Int) 256 readyMgr (keyEvent 8 false) true).ret = true :=
  ⟨by decide,
   (C1_keyDown_policy_amended (F := Int) 256 readyMgr (keyEvent 8 false) true
      (by decide)).trans (by decide)⟩

/-- C5: for every host key code that `mapKey` maps to `Key::InvalidKey`, the key-down handler
(whatever the repeat flag and whether or not text is being captured) and the key-up handler
deliver no call at all, leave the manager as it was, and return `false`. -/
theorem C5_unmapped_key_dropped {F : Type} (MaxNumKeys : Nat) (self : emscInputMgr)
    (e : EmscriptenKeyboardEvent) (IsCapturingText : Bool)
    (hunmapped : mapKey MaxNumKeys self e.keyCode = Key.InvalidKey) :
    (emscKeyDown (F := F) MaxNumKeys self e IsCapturingText).calls = []
    ∧ (emscKeyDown (F := F) MaxNumKeys self e IsCapturingText).ret = false
    ∧ (emscKeyDown (F := F) MaxNumKeys self e IsCapturingText).self = self
    ∧ (emscKeyUp (F := F) MaxNumKeys self e).calls = []
    ∧ (emscKeyUp (F := F) MaxNumKeys self e).ret = false
    ∧ (emscKeyUp (F := F) MaxNumKeys self e).self = self := by
  simp [emscKeyDown, emscKeyUp, hunmapped]

/-- C5 at the unassigned host code 10 and at the out-of-range host code 9999. -/
theorem C5_unmapped_key_dropped_witness :
    mapKey 256 readyMgr (keyEvent 10 true).keyCode = Key.InvalidKey
    ∧ (emscKeyDown (F := Int) 256 readyMgr (keyEvent 10 true) true).calls = []
    ∧ (emscKeyDown (F := Int) 256 readyMgr (keyEvent 10 true) true).ret = false
    ∧ (emscKeyUp (F := Int) 256 readyMgr (keyEvent 9999 false)).ret = false :=
  ⟨by decide,
   (C5_unmapped_key_dropped (F := Int) 256 readyMgr (keyEvent 10 true) true (by decide)).1,
   (C5_unmapped_key_dropped (F := Int) 256 readyMgr (keyEvent 10 true) true (by decide)).2.1,
   (C5_unmapped_key_dropped (F := Int) 256 readyMgr (keyEvent 9999 false) true
      (by decide)).2.2.2.2.1⟩

/-- C10: for every host key code that `mapKey` maps to a valid engine key `k`, the key-down
handler delivers exactly one call, `onKeyRepeat(k)` when the repeat flag is set and
`onKeyDown(k)` when it is not; the key-up handler delivers exactly `onKeyUp(k)` and returns
`true`. Neither handler changes the manager. -/
theorem C10_mapped_key_delivered {F : Type} (MaxNumKeys : Nat) (self : emscInputMgr)
    (e : EmscriptenKeyboardEvent) (IsCapturingText : Bool)
    (hmapped : mapKey MaxNumKeys self e.keyCode ≠ Key.InvalidKey) :
    (emscKeyDown (F := F) MaxNumKeys self e IsCapturingText).calls =
        [if e.isRepeat then Call.onKeyRepeat (mapKey MaxNumKeys self e.keyCode)
         else Call.onKeyDown (mapKey MaxNumKeys self e.keyCode)]
    ∧ (emscKeyDown (F := F) MaxNumKeys self e IsCapturingText).self = self
    ∧ (emscKeyUp (F := F) MaxNumKeys self e).calls =
        [Call.onKeyUp (mapKey MaxNumKeys self e.keyCode)]
    ∧ (emscKeyUp (F := F) MaxNumKeys self e).ret = true
    ∧ (emscKeyUp (F := F) MaxNumKeys self e).self = self := by
  have hne : Key.InvalidKey ≠ mapKey MaxNumKeys self e.keyCode := fun h => hmapped h.symm
  refine ⟨?_, ?_, ?_, ?_, ?_⟩
  · unfold emscKeyDown
    simp only [hne, ne_eq, not_false_eq_true, if_true]
    cases IsCapturingText <;> cases e.isRepeat <;> simp <;> split <;> rfl
  · unfold emscKeyDown
    simp only [hne, ne_eq, not_false_eq_true, if_true]
    cases IsCapturingText
    · simp
    · simp only [if_true]
      split <;> rfl
  · simp [emscKeyUp, hne]
  · simp [emscKeyUp, hne]
  · simp [emscKeyUp, hne]

/-- C10 at host code 65 with the repeat flag set: exactly `onKeyRepeat(A)`; key-up gives
exactly `onKeyUp(A)`. -/
theorem C10_mapped_key_delivered_witness :
    mapKey 256 readyMgr (keyEvent 65 true).keyCode ≠ Key.InvalidKey
    ∧ (emscKeyDown (F := Int) 256 readyMgr (keyEvent 65 true) false).calls
        = [Call.onKeyRepeat Key.A]
    ∧ (emscKeyUp (F := Int) 256 readyMgr (keyEvent 65 true)).calls = [Call.onKeyUp Key.A] :=
  ⟨by decide,
   (C10_mapped_key_delivered (F := Int) 256 readyMgr (keyEvent 65 true) false
      (by decide)).1.trans (by decide),
   (C10_mapped_key_delivered (F := Int) 256 readyMgr (keyEvent 65 true) false
      (by decide)).2.2.1.trans (by decide)⟩

/-! ## Mouse handlers -/

/-- The button mapping of the source agrees with the specification-side one. -/
theorem mapMouseButton_eq (b : Nat) :
    mapMouseButton b = (validButton b).getD Button.InvalidButton := by
  match b with
  | 0 => rfl
  | 1 => rfl
  | 2 => rfl
  | _ + 3 => rfl

/-- For a host button index above 2 the mapped button is `InvalidButton`. -/
theorem mapMouseButton_invalid (b : Nat) (h : 2 < b) :
    mapMouseButton b = Button.InvalidButton := by
  match b, h with
  | _ + 3, _ => rfl

/-- For a host button index up to 2 the mapped button is valid. -/
theorem mapMouseButton_valid (b : Nat) (h : b ≤ 2) :
    Button.InvalidButton ≠ mapMouseButton b := by
  match b, h with
  | 0, _ => decide
  | 1, _ => decide
  | 2, _ => decide

/-- C4: the host button indices 0, 1, 2 map to LMB, MMB, RMB. For such an index the mouse-down
(mouse-up) handler delivers exactly one `onButtonDown` (`onButtonUp`) with that button,
followed by a pointer-lock request when the returned lock mode is `PointerLockModeEnable`
and by a pointer-lock exit for any other mode, and sets `pointerLockActive` to whether the
mode is `PointerLockModeEnable`. For every other index the button is invalid: the handlers
make no call at all and leave the manager, `pointerLockActive` included, unchanged. -/
theorem C4_mouse_button_handling {F : Type} (self : emscInputMgr) (e : EmscriptenMouseEvent)
    (reply : Button → PointerLockMode) :
    mapMouseButton 0 = Button.LMB ∧ mapMouseButton 1 = Button.MMB
    ∧ mapMouseButton 2 = Button.RMB
    ∧ (e.button ≤ 2 →
        (emscMouseDown (F := F) self e reply).calls =
            [Call.onButtonDown (mapMouseButton e.button),
             if reply (mapMouseButton e.button) = PointerLockMode.PointerLockModeEnable
             then Call.emscripten_request_pointerlock Target.null false
             else Call.emscripten_exit_pointerlock]
        ∧ (emscMouseDown (F := F) self e reply).self.pointerLockActive =
            decide (reply (mapMouseButton e.button) = PointerLockMode.PointerLockModeEnable)
        ∧ (emscMouseUp (F := F) self e reply).calls =
            [Call.onButtonUp (mapMouseButton e.button),
             if reply (mapMouseButton e.button) = PointerLockMode.PointerLockModeEnable
             then Call.emscripten_request_pointerlock Target.null false
             else Call.emscripten_exit_pointerlock]
        ∧ (emscMouseUp (F := F) self e reply).self.pointerLockActive =
            decide (reply (mapMouseButton e.button) = PointerLockMode.PointerLockModeEnable))
    ∧ (2 < e.button →
        mapMouseButton e.button = Button.InvalidButton
        ∧ (emscMouseDown (F := F) self e reply).calls = []
        ∧ (emscMouseDown (F := F) self e reply).self = self
        ∧ (emscMouseUp (F := F) self e reply).calls = []
        ∧ (emscMouseUp (F := F) self e reply).self = self) := by
  refine ⟨rfl, rfl, rfl, ?_, ?_⟩
  · intro hb
    have hv := mapMouseButton_valid e.button hb
    by_cases hm : reply (mapMouseButton e.button) = PointerLockMode.PointerLockModeEnable
    · simp [emscMouseDown, emscMouseUp, updatePointerLockMode, hv, hm]
    · have hm2 : ¬ PointerLockMode.PointerLockModeEnable = reply (mapMouseButton e.button) :=
        fun h => hm h.symm
      simp [emscMouseDown, emscMouseUp, updatePointerLockMode, hv, hm, hm2]
  · intro hb
    have hi := mapMouseButton_invalid e.button hb
    simp [emscMouseDown, emscMouseUp, hi]

/-- C4 at the right button (index 2) with the engine asking for pointer lock, and at the
invalid index 7. -/
theorem C4_mouse_button_handling_witness :
    (mouseEvent 2).button ≤ 2
    ∧ (emscMouseDown (F := Int) readyMgr (mouseEvent 2)
          (fun _ => PointerLockMode.PointerLockModeEnable)).calls =
        [Call.onButtonDown Button.RMB, Call.emscripten_request_pointerlock Target.null false]
    ∧ 2 < (mouseEvent 7).button
    ∧ (emscMouseUp (F := Int) readyMgr (mouseEvent 7)
          (fun _ => PointerLockMode.PointerLockModeEnable)).calls = [] :=
  ⟨by decide,
   ((C4_mouse_button_handling (F := Int) readyMgr (mouseEvent 2)
      (fun _ => PointerLockMode.PointerLockModeEnable)).2.2.2.1 (by decide)).1.trans
      (by decide),
   by decide,
   ((C4_mouse_button_handling (F := Int) readyMgr (mouseEvent 7)
      (fun _ => PointerLockMode.PointerLockModeEnable)).2.2.2.2 (by decide)).2.2.2.1⟩

/-- The value `updatePointerLockMode` returns. -/
theorem updatePointerLockMode_snd {F : Type} (mode : PointerLockMode) :
    (updatePointerLockMode (F := F) mode).2
      = decide (mode = PointerLockMode.PointerLockModeEnable) := by
  unfold updatePointerLockMode
  by_cases h : PointerLockMode.PointerLockModeEnable = mode
  · subst h
    simp
  · have h2 : ¬ mode = PointerLockMode.PointerLockModeEnable := fun h3 => h h3.symm
    simp [h, h2]

/-- After handling one host mouse event, `pointerLockActive` is decided by the lock mode
returned to that event when it is a valid-button mouse-down or mouse-up, and is unchanged
otherwise. -/
theorem handleMouse_pointerLockActive {F : Type} (toFloat : Int → F) (self : emscInputMgr)
    (ev : MouseInput) :
    (handleMouse toFloat self ev).self.pointerLockActive =
      match lockReply ev with
      | some mode => decide (mode = PointerLockMode.PointerLockModeEnable)
      | none => self.pointerLockActive := by
  cases ev with
  | down e r =>
    obtain ⟨b, cx, cy, mx, my⟩ := e
    match b with
    | 0 => simp [handleMouse, lockReply, validButton, emscMouseDown, mapMouseButton,
                 updatePointerLockMode_snd]
    | 1 => simp [handleMouse, lockReply, validButton, emscMouseDown, mapMouseButton,
                 updatePointerLockMode_snd]
    | 2 => simp [handleMouse, lockReply, validButton, emscMouseDown, mapMouseButton,
                 updatePointerLockMode_snd]
    | _ + 3 => simp [handleMouse, lockReply, validButton, emscMouseDown, mapMouseButton]
  | up e r =>
    obtain ⟨b, cx, cy, mx, my⟩ := e
    match b with
    | 0 => simp [handleMouse, lockReply, validButton, emscMouseUp, mapMouseButton,
                 updatePointerLockMode_snd]
    | 1 => simp [handleMouse, lockReply, validButton, emscMouseUp, mapMouseButton,
                 updatePointerLockMode_snd]
    | 2 => simp [handleMouse, lockReply, validButton, emscMouseUp, mapMouseButton,
                 updatePointerLockMode_snd]
    | _ + 3 => simp [handleMouse, lockReply, validButton, emscMouseUp, mapMouseButton]
  | move e =>
    simp only [handleMouse, lockReply, emscMouseMove]
    split <;> rfl

/-- After a history of host mouse events, `pointerLockActive` is decided by the most recent
lock mode returned to a valid-button mouse-down or mouse-up, and is the start value when
there was none. -/
theorem runMouse_pointerLockActive {F : Type} (toFloat : Int → F) (self : emscInputMgr)
    (history : List MouseInput) :
    (runMouse toFloat self history).pointerLockActive =
      match lastLockReply history with
      | some mode => decide (mode = PointerLockMode.PointerLockModeEnable)
      | none => self.pointerLockActive := by
  induction history using List.reverseRecOn with
  | nil => rfl
  | append_singleton history ev ih =>
    have hrun : runMouse toFloat self (history ++ [ev])
        = (handleMouse toFloat (runMouse toFloat self history) ev).self := by
      simp [runMouse, List.foldl_append]
    rw [hrun, handleMouse_pointerLockActive]
    cases hr : lockReply ev with
    | some mode => simp [lastLockReply, List.filterMap_cons, hr]
    | none =>
      have hlast : lastLockReply (history ++ [ev]) = lastLockReply history := by
        simp [lastLockReply, List.filterMap_cons, hr]
      rw [hlast]
      exact ih

/-- C3: starting from a freshly constructed manager, after every sequence of mouse-down,
mouse-up and mouse-move events a mouse-move delivers exactly one call: `onMov` with
(`movementX`, `movementY`) if the most recent valid-button mouse-down or mouse-up returned
`PointerLockModeEnable`, and `onPosMov` with (`canvasX`, `canvasY`) otherwise (also when
there was no such event); the mouse-move leaves the manager, `pointerLockActive` included,
unchanged. -/
theorem C3_mouse_move_routing {F : Type} (toFloat : Int → F) (raw : emscInputMgr)
    (history : List MouseInput) (e : EmscriptenMouseEvent) :
    (emscMouseMove toFloat (runMouse toFloat (emscInputMgr.construct raw) history) e).calls =
        [if routedAsDelta history = true
         then Call.onMov { x := toFloat e.movementX, y := toFloat e.movementY }
         else Call.onPosMov { x := toFloat e.canvasX, y := toFloat e.canvasY }]
    ∧ (emscMouseMove toFloat (runMouse toFloat (emscInputMgr.construct raw) history) e).self
        = runMouse toFloat (emscInputMgr.construct raw) history
    ∧ (runMouse toFloat (emscInputMgr.construct raw) (history ++ [MouseInput.move e])
        ).pointerLockActive
        = (runMouse toFloat (emscInputMgr.construct raw) history).pointerLockActive := by
  have hlock := runMouse_pointerLockActive toFloat (emscInputMgr.construct raw) history
  have hactive : (runMouse toFloat (emscInputMgr.construct raw) history).pointerLockActive
      = routedAsDelta history := by
    rw [hlock]
    unfold routedAsDelta
    cases lastLockReply history with
    | none => simp [emscInputMgr.construct]
    | some mode => simp
  have hself : (emscMouseMove toFloat
      (runMouse toFloat (emscInputMgr.construct raw) history) e).self
        = runMouse toFloat (emscInputMgr.construct raw) history := by
    unfold emscMouseMove
    split <;> rfl
  refine ⟨?_, hself, ?_⟩
  · unfold emscMouseMove
    rw [hactive]
    cases routedAsDelta history <;> simp
  · have hrun : runMouse toFloat (emscInputMgr.construct raw) (history ++ [MouseInput.move e])
        = (emscMouseMove toFloat
            (runMouse toFloat (emscInputMgr.construct raw) history) e).self := by
      simp [runMouse, List.foldl_append, handleMouse]
    rw [hrun, hself]

/-! ## Touch handler -/

/-- A buffer whose handles are all null holds nothing to release. -/
theorem handles_of_all_null {NumSlots : Nat} (b : d3d12Mesh.buffer NumSlots)
    (hr : ∀ i, b.d3d12RenderBuffers i = none) (hu : ∀ i, b.d3d12UploadBuffers i = none) :
    b.handles = [] := by
  simp [d3d12Mesh.buffer.handles, hr, hu]

/-- Clearing the sample descriptor releases its four live handles, vertex buffer first. -/
theorem clear_loadedMesh_releases :
    (d3d12Mesh.Clear (-1) loadedMesh).2 = [100, 200, 101, 201] := by
  decide

/-- C8: clearing a mesh descriptor twice leaves it in the same state as clearing it once, and
the second clear finds no handle to release. After a clear, each of the two buffers is in
the state the buffer constructor sets: every render and upload handle of every slot is
null, `updateFrameIndex` is `InvalidIndex`, `numSlots` is 1 and `activeSlot` is 0. -/
theorem C8_clear_idempotent {NumSlots : Nat} (InvalidIndex : Int) (m : d3d12Mesh NumSlots) :
    (d3d12Mesh.Clear InvalidIndex (d3d12Mesh.Clear InvalidIndex m).1).1
        = (d3d12Mesh.Clear InvalidIndex m).1
    ∧ (d3d12Mesh.Clear InvalidIndex (d3d12Mesh.Clear InvalidIndex m).1).2 = []
    ∧ (∀ k : Fin 2,
        (d3d12Mesh.Clear InvalidIndex m).1.buffers k
            = d3d12Mesh.buffer.construct NumSlots InvalidIndex
        ∧ (∀ i, ((d3d12Mesh.Clear InvalidIndex m).1.buffers k).d3d12RenderBuffers i = none)
        ∧ (∀ i, ((d3d12Mesh.Clear InvalidIndex m).1.buffers k).d3d12UploadBuffers i = none)
        ∧ ((d3d12Mesh.Clear InvalidIndex m).1.buffers k).updateFrameIndex
            = toUint64 InvalidIndex
        ∧ ((d3d12Mesh.Clear InvalidIndex m).1.buffers k).numSlots = 1
        ∧ ((d3d12Mesh.Clear InvalidIndex m).1.buffers k).activeSlot = 0) := by
  refine ⟨rfl, ?_, fun k => ⟨rfl, fun _ => rfl, fun _ => rfl, rfl, rfl, rfl⟩⟩
  show ((d3d12Mesh.Clear InvalidIndex m).1.buffers d3d12Mesh.vb).handles
      ++ ((d3d12Mesh.Clear InvalidIndex m).1.buffers d3d12Mesh.ib).handles = []
  rw [handles_of_all_null _ (fun _ => rfl) (fun _ => rfl),
    handles_of_all_null _ (fun _ => rfl) (fun _ => rfl)]
  rfl

/-! ## Setup and discard -/

/-- Every callback that `setup` installs for a host event other than the wheel is uninstalled
by the following `discard` with the same target and the same capture flag. -/
theorem discard_mirrors_setup_except_wheel (MaxNumKeys : Nat) (raw : emscInputMgr)
    (inputSetup : InputSetup) (addedId : RunLoopId)
    (ev : HostEvent) (target : Target) (useCapture : Bool) (cb : Callback)
    (hinstalled : Call.emscripten_set_callback ev target UserData.this useCapture (some cb)
      ∈ (setup (F := Int) MaxNumKeys (emscInputMgr.construct raw) inputSetup addedId).2)
    (hev : ev ≠ HostEvent.wheel) :
    Call.emscripten_set_callback ev target UserData.null useCapture none
      ∈ (discard (F := Int)
          (setup (F := Int) MaxNumKeys (emscInputMgr.construct raw) inputSetup addedId).1).2 := by
  simp [setup, setupCallbacks] at hinstalled
  rcases hinstalled with ⟨rfl, rfl, rfl, rfl⟩ | ⟨rfl, rfl, rfl, rfl⟩ | ⟨rfl, rfl, rfl, rfl⟩
    | ⟨rfl, rfl, rfl, rfl⟩ | ⟨rfl, rfl, rfl, rfl⟩ | ⟨rfl, rfl, rfl, rfl⟩ | ⟨rfl, rfl, rfl, rfl⟩
    | ⟨rfl, rfl, rfl, rfl⟩ | ⟨rfl, rfl, rfl, rfl⟩ | ⟨rfl, rfl, rfl, rfl⟩ | ⟨rfl, rfl, rfl, rfl⟩
    | ⟨_, rfl, rfl, rfl, rfl⟩ | ⟨_, rfl, rfl, rfl, rfl⟩
  all_goals first
    | exact absurd rfl hev
    | simp [discard, discardCallbacks]

/-- C9 (evaluation of the code): whatever the input setup, `setup` installs the wheel callback
on the canvas with the capture flag `false`, while the following `discard` issues the wheel
uninstall call with the capture flag `true` and issues none with the flag `false`. -/
theorem C9_wheel_capture_flag_differs (MaxNumKeys : Nat) (raw : emscInputMgr)
    (inputSetup : InputSetup) (addedId : RunLoopId) :
    Call.emscripten_set_callback HostEvent.wheel (Target.selector "#canvas") UserData.this
        false (some Callback.emscWheel)
      ∈ (setup (F := Int) MaxNumKeys (emscInputMgr.construct raw) inputSetup addedId).2
    ∧ Call.emscripten_set_callback HostEvent.wheel (Target.selector "#canvas") UserData.null
        true none
      ∈ (discard (F := Int)
          (setup (F := Int) MaxNumKeys (emscInputMgr.construct raw) inputSetup addedId).1).2
    ∧ Call.emscripten_set_callback HostEvent.wheel (Target.selector "#canvas") UserData.null
        false none
      ∉ (discard (F := Int)
          (setup (F := Int) MaxNumKeys (emscInputMgr.construct raw) inputSetup addedId).1).2 := by
  refine ⟨?_, ?_, ?_⟩
  · simp [setup, setupCallbacks]
  · simp [discard, discardCallbacks]
  · simp [discard, discardCallbacks]

end Oryol
